import Mathlib

/-!
Shallow embedding of the citizenx repository's data-access and handler layer:
the auth repository (`authRepo`), the incident-report repository
(`incidentReportRepo`) and the post-creation handler (`handleCreatePost`).
Database tables are lists of rows; a gorm query that can fail for
infrastructure reasons takes an explicit error flag.
-/

namespace CitizenX

/-- A row of the `rewards` table (`models.Reward`): user id, reward type,
point, incident report id and balance. -/
structure Reward where
  userID : Nat
  rewardType : String
  point : Int
  incidentReportID : String
  balance : Int
deriving DecidableEq

/-- Embeds `incidentReportRepo.UpdateReward`: `First` scans the table for the
first row with the given user id; when none is found (`gorm.ErrRecordNotFound`)
the argument reward is `Create`d; otherwise RewardType, Point and
IncidentReportID of the found row are overwritten, Balance is overwritten only
when the argument's balance is non-zero, and the row is `Save`d back in place
(primary-key update of the fetched row). -/
def UpdateReward (db : List Reward) (userID : Nat) (reward : Reward) : List Reward :=
  match db with
  | [] => [reward]
  | row :: rest =>
    if row.userID = userID then
      { row with
        rewardType := reward.rewardType
        point := reward.point
        incidentReportID := reward.incidentReportID
        balance := if reward.balance ≠ 0 then reward.balance else row.balance } :: rest
    else
      row :: UpdateReward rest userID reward

/-- A row of the `users` table (`models.User`), with the attributes the
reviewed code touches. -/
structure User where
  id : Nat
  email : String
  username : String
  hashedPassword : String
  online : Bool
deriving DecidableEq

/-- Embeds `authRepo.UpdateUser`: the body is a bare `return nil`, so the
stored users are returned unchanged and the error is `nil`. -/
def UpdateUser (db : List User) (user : User) : List User × Option String :=
  (db, none)

/-- Embeds `authRepo.TokenInBlacklist`: a `Find` for rows whose token equals
the argument (the matched rows are discarded into a throwaway struct), and the
return value is whether the query itself errored (`result.Error != nil`).
`blacklist` is the `blacklists` table as a list of tokens; `queryErr` is
whether the `Find` failed for infrastructure reasons (a `Find` into a slice
does not error on an empty match). -/
def TokenInBlacklist (blacklist : List String) (token : String) (queryErr : Bool) : Bool :=
  let _matched := blacklist.filter (fun t => t = token)
  queryErr

/-- Embeds the package-level `normalizeToken`: trims leading and trailing
white space (`strings.TrimSpace`), written over the character list. -/
def normalizeToken (token : String) : String :=
  ⟨((token.data.dropWhile Char.isWhitespace).reverse.dropWhile Char.isWhitespace).reverse⟩

/-- Embeds `authRepo.IsTokenInBlacklist`: normalizes the token, counts rows
whose token equals the normalized token (the `Count` error is ignored, so a
failed count leaves `count` at zero) and returns `count > 0`. -/
def IsTokenInBlacklist (blacklist : List String) (token : String) (queryErr : Bool) : Bool :=
  let normalizedToken := normalizeToken token
  let count : Nat := if queryErr then 0 else blacklist.countP (fun t => t = normalizedToken)
  decide (count > 0)

/-- The JSON value found under the `"id"` key of the validated token claims:
the handler accepts only a `float64` (converted to `uint`, here a `Nat`) and
rejects every other dynamic type. -/
inductive ClaimID where
  | num (value : Nat)
  | other
deriving DecidableEq

/-- A row of the `posts` table (`models.Post`) as the handler constructs it. -/
structure Post where
  userID : Nat
  title : String
  postCategory : String
  image : String
  postDescription : String
deriving DecidableEq

/-- One multipart post-creation request together with the outcomes of the
fallible calls the handler makes while serving it: the form-file extraction,
the file validation, the token header, claim validation, the form fields, and
the infrastructure errors of the S3-client creation, the upload and the
database insert. -/
structure CreatePostRequest where
  formFileErr : Bool
  fileInvalid : Bool
  fileName : String
  headerToken : String
  claims : Option ClaimID
  title : String
  postCategory : String
  postDescription : String
  s3ClientErr : Bool
  uploadErr : Bool
  createPostErr : Bool
deriving DecidableEq

/-- What serving one request did: the HTTP status written, whether the S3
upload helper was invoked, whether `CreatePost` (the database insert) was
invoked, and the post handed to `CreatePost` when it was. -/
structure HandlerOutcome where
  status : Nat
  uploadCalled : Bool
  createPostCalled : Bool
  post : Option Post
deriving DecidableEq

/-- Modelled from the spec: the server package's `uploadFileToS3` helper
called by `handleCreatePost` is not among the reviewed sources (only its call
site is); per the spec it returns the deterministic public URL bucket host
plus filename, so a created post's image is `<bucketHost>/<userID>_<originalFilename>`. -/
def uploadFileToS3 (bucketHost fileName : String) : String :=
  bucketHost ++ "/" ++ fileName

/-- Embeds `Server.handleCreatePost`: extract the form file (400 on error),
validate it (400), read the bearer token (401 when empty), validate the
claims (401 on error), require a `float64` id claim (400), require title,
category and description to be non-empty (400), create the S3 client (500),
upload under `<userID>_<originalFilename>` (500 on error), build the post
with the returned URL and `CreatePost` it (500 on error), else 200. -/
def handleCreatePost (bucketHost : String) (req : CreatePostRequest) : HandlerOutcome :=
  if req.formFileErr then ⟨400, false, false, none⟩
  else if req.fileInvalid then ⟨400, false, false, none⟩
  else if req.headerToken = "" then ⟨401, false, false, none⟩
  else
    match req.claims with
    | none => ⟨401, false, false, none⟩
    | some idClaim =>
      match idClaim with
      | .other => ⟨400, false, false, none⟩
      | .num userID =>
        if req.title = "" ∨ req.postCategory = "" ∨ req.postDescription = "" then
          ⟨400, false, false, none⟩
        else if req.s3ClientErr then ⟨500, false, false, none⟩
        else
          let filename := toString userID ++ "_" ++ req.fileName
          if req.uploadErr then ⟨500, true, false, none⟩
          else
            let filepath := uploadFileToS3 bucketHost filename
            let post : Post := ⟨userID, req.title, req.postCategory, filepath, req.postDescription⟩
            if req.createPostErr then ⟨500, true, true, some post⟩
            else ⟨200, true, true, some post⟩

/-- What the object store sends back for a PutObject call: an opaque response
body and the call's error. -/
structure PutObjectResult where
  body : String
  err : Option String
deriving DecidableEq

/-- Embeds `incidentReportRepo.UploadFileToS3`: buffers the file content,
issues one PutObject call, and returns the URL built as the fixed bucket host
plus the filename together with the call's error; the URL is computed before
the call and does not depend on the PutObject response. -/
def UploadFileToS3 (fileName : String) (resp : PutObjectResult) : String × Option String :=
  let url := "https://s3-eu-west-3.amazonaws.com/arp-rental/" ++ fileName
  (url, resp.err)

/-- A row of the `report_types` table (`models.ReportType`), with the
attributes the reviewed queries and inserts touch. -/
structure ReportType where
  category : String
  stateName : String
  lgaName : String
  incidentReportRating : String
deriving DecidableEq

/-- A row of the `sub_reports` table (`models.SubReport`). -/
structure SubReport where
  subReportType : String
deriving DecidableEq

/-- A row of the `lgas` table (`models.LGA`). -/
structure LGA where
  name : String
deriving DecidableEq

/-- A row of the `states` table (`models.State`). -/
structure StateRow where
  name : String
deriving DecidableEq

/-- The four tables `SaveStateLgaReportType` writes. -/
structure CatalogDB where
  reportTypes : List ReportType
  subReports : List SubReport
  lgas : List LGA
  states : List StateRow
deriving DecidableEq

/-- Which statements inside the `SaveStateLgaReportType` transaction fail
(infrastructure errors reported by gorm). -/
structure TxFailures where
  createReportTypeFails : Bool
  createSubReportFails : Bool
  createLgaFails : Bool
  createStateFails : Bool
  commitFails : Bool
deriving DecidableEq

/-- Embeds `incidentReportRepo.SaveStateLgaReportType`: begins a transaction,
`Create`s the report type, the sub report, the LGA and the state in this
order inside it, rolls the transaction back and returns the insert's error as
soon as one insert fails (leaving the stored tables unchanged), and commits
only after all four succeeded; a failed commit persists nothing and returns
the commit error. -/
def SaveStateLgaReportType (db : CatalogDB) (lga : LGA) (state : StateRow)
    (reportType : ReportType) (subReport : SubReport) (f : TxFailures) :
    CatalogDB × Option String :=
  if f.createReportTypeFails then (db, some "create report_type failed")
  else
    let tx1 : CatalogDB := { db with reportTypes := db.reportTypes ++ [reportType] }
    if f.createSubReportFails then (db, some "create sub_report failed")
    else
      let tx2 : CatalogDB := { tx1 with subReports := tx1.subReports ++ [subReport] }
      if f.createLgaFails then (db, some "create lga failed")
      else
        let tx3 : CatalogDB := { tx2 with lgas := tx2.lgas ++ [lga] }
        if f.createStateFails then (db, some "create state failed")
        else
          let tx4 : CatalogDB := { tx3 with states := tx3.states ++ [state] }
          if f.commitFails then (db, some "commit failed")
          else (tx4, none)

/-- A row of the `incident_reports` table (`models.IncidentReport`), with the
attributes the paginated listings touch; `timeofIncidence` is the
`timeof_incidence` timestamp. -/
structure IncidentReport where
  id : String
  userID : Nat
  stateName : String
  timeofIncidence : Nat
deriving DecidableEq

/-- The repository's fixed page size constant. -/
def DefaultPageSize : Nat := 20

/-- The `ORDER BY timeof_incidence DESC` clause: the rows sorted newest
first (a stable sort, standing for one fixed ordering of the result set). -/
def orderByTimeDesc (rows : List IncidentReport) : List IncidentReport :=
  rows.mergeSort (fun a b => decide (b.timeofIncidence ≤ a.timeofIncidence))

/-- Embeds `incidentReportRepo.GetAllReports`: offset = (page − 1) × 20, then
`LIMIT 20 OFFSET offset` over the rows ordered by time of incidence
descending. A `Find` into a slice cannot return `gorm.ErrRecordNotFound`, so
the "no incident reports found" branch is dead and the page (possibly empty)
comes back without an error. -/
def GetAllReports (db : List IncidentReport) (page : Int) :
    Except String (List IncidentReport) :=
  let offset : Int := (page - 1) * 20
  .ok (((orderByTimeDesc db).drop offset.toNat).take 20)

/-- Embeds `incidentReportRepo.GetAllReportsByState`: `WHERE state = ?`, then
the same ordering and `LIMIT DefaultPageSize OFFSET (page − 1) × DefaultPageSize`. -/
def GetAllReportsByState (db : List IncidentReport) (state : String) (page : Int) :
    Except String (List IncidentReport) :=
  let offset : Int := (page - 1) * DefaultPageSize
  .ok (((orderByTimeDesc (db.filter (fun r => decide (r.stateName = state)))).drop
    offset.toNat).take DefaultPageSize)

/-- A float64 as the rating arithmetic produces it: a finite value (modelled
as an exact rational — rounding is irrelevant to the claims, which concern
the zero-denominator special values), NaN, or a signed infinity. -/
inductive GoFloat where
  | val (q : ℚ)
  | nan
  | inf
  | ninf
deriving DecidableEq

/-- Go's float64 division on such operands: 0/0 is NaN, x/0 with x ≠ 0 is a
signed infinity, otherwise the quotient. -/
def goDiv (a b : ℚ) : GoFloat :=
  if b = 0 then
    if a = 0 then .nan
    else if a > 0 then .inf
    else .ninf
  else .val (a / b)

/-- Go's float64 multiplication by a positive finite constant (here 100):
NaN and the infinities are absorbing. -/
def goMulPos (x : GoFloat) (c : ℚ) : GoFloat :=
  match x with
  | .val q => .val (q * c)
  | .nan => .nan
  | .inf => .inf
  | .ninf => .ninf

/-- `models.RatingPercentage`. -/
structure RatingPercentage where
  goodPercentage : GoFloat
  badPercentage : GoFloat
deriving DecidableEq

/-- Embeds `incidentReportRepo.GetRatingPercentages`: three `Count` queries
over `report_types` — rows matching category and state, those also rated
"good", those also rated "bad" — each returning a wrapped error when the
query fails; then goodCount/totalCount × 100 and badCount/totalCount × 100
with no guard against a zero total, returned without an error. -/
def GetRatingPercentages (rows : List ReportType) (reportType state : String)
    (totalErr goodErr badErr : Option String) : Except String RatingPercentage :=
  match totalErr with
  | some e => .error ("failed to fetch total count: " ++ e)
  | none =>
    let totalCount : Nat :=
      rows.countP (fun r => decide (r.category = reportType ∧ r.stateName = state))
    match goodErr with
    | some e => .error ("failed to fetch good count: " ++ e)
    | none =>
      let goodCount : Nat :=
        rows.countP (fun r => decide (r.category = reportType ∧ r.stateName = state ∧
          r.incidentReportRating = "good"))
      match badErr with
      | some e => .error ("failed to fetch bad count: " ++ e)
      | none =>
        let badCount : Nat :=
          rows.countP (fun r => decide (r.category = reportType ∧ r.stateName = state ∧
            r.incidentReportRating = "bad"))
        let goodPercentage := goMulPos (goDiv (goodCount : ℚ) (totalCount : ℚ)) 100
        let badPercentage := goMulPos (goDiv (badCount : ℚ) (totalCount : ℚ)) 100
        .ok { goodPercentage := goodPercentage, badPercentage := badPercentage }

/-! ## Helper lemmas -/

/-- `UpdateReward` preserves the number of rows of a user that already has
one: the updated row keeps its user id. -/
theorem updateReward_countP_eq (db : List Reward) (u : Nat) (r : Reward)
    (h : 0 < db.countP (fun row => row.userID = u)) :
    (UpdateReward db u r).countP (fun row => row.userID = u)
      = db.countP (fun row => row.userID = u) := by
  induction db with
  | nil => simp at h
  | cons row rest ih =>
    by_cases hrow : row.userID = u
    · simp [UpdateReward, hrow, List.countP_cons]
    · have h' : 0 < rest.countP (fun row => row.userID = u) := by
        simpa [List.countP_cons, hrow] using h
      simp [UpdateReward, hrow, List.countP_cons, ih h']

/-- After `UpdateReward` with a non-zero balance on a table holding exactly
one row for the user, every row of that user carries the argument's reward
type, point, incident-report id and balance. -/
theorem updateReward_overwrites (db : List Reward) (u : Nat) (r : Reward)
    (hone : db.countP (fun row => row.userID = u) = 1) (hb : r.balance ≠ 0) :
    ∀ row ∈ UpdateReward db u r, row.userID = u →
      row.rewardType = r.rewardType ∧ row.point = r.point
      ∧ row.incidentReportID = r.incidentReportID ∧ row.balance = r.balance := by
  induction db with
  | nil => simp at hone
  | cons row rest ih =>
    by_cases hrow : row.userID = u
    · have hrest : rest.countP (fun row => row.userID = u) = 0 := by
        simpa [List.countP_cons, hrow] using hone
      intro x hx hxu
      simp only [UpdateReward, if_pos hrow, List.mem_cons] at hx
      rcases hx with rfl | hx
      · simp [hb]
      · exact absurd (by simpa using hxu)
          (by simpa using List.countP_eq_zero.mp hrest x hx)
    · have hone' : rest.countP (fun row => row.userID = u) = 1 := by
        simpa [List.countP_cons, hrow] using hone
      intro x hx hxu
      simp only [UpdateReward, if_neg hrow, List.mem_cons] at hx
      rcases hx with rfl | hx
      · exact absurd hxu hrow
      · exact ih hone' x hx hxu

/-- The handler performs its side effects only on the late path: the S3
upload is invoked only when the file checks, the token checks, the id-claim
check, the field checks and the client creation all succeeded, and the
database insert is invoked only after a successful upload. -/
theorem handleCreatePost_calls (bucketHost : String) (req : CreatePostRequest) :
    ((handleCreatePost bucketHost req).uploadCalled = true →
      req.formFileErr = false ∧ req.fileInvalid = false ∧ req.headerToken ≠ ""
      ∧ (∃ uid, req.claims = some (.num uid))
      ∧ req.title ≠ "" ∧ req.postCategory ≠ "" ∧ req.postDescription ≠ ""
      ∧ req.s3ClientErr = false)
    ∧ ((handleCreatePost bucketHost req).createPostCalled = true →
      (handleCreatePost bucketHost req).uploadCalled = true ∧ req.uploadErr = false) := by
  obtain ⟨ff, fv, fn, tok, cl, ti, pc, pd, s3e, ue, ce⟩ := req
  simp only [handleCreatePost]
  rcases cl with _ | cid
  · cases ff <;> cases fv <;> by_cases htok : tok = "" <;> simp [htok]
  · cases cid with
    | other => cases ff <;> cases fv <;> by_cases htok : tok = "" <;> simp [htok]
    | num uid =>
      by_cases hfields : ti = "" ∨ pc = "" ∨ pd = ""
      · cases ff <;> cases fv <;> by_cases htok : tok = "" <;> simp [htok, hfields]
      · rw [not_or, not_or] at hfields
        cases ff <;> cases fv <;> cases s3e <;> cases ue <;> cases ce <;>
          by_cases htok : tok = "" <;>
          simp [htok, hfields.1, hfields.2.1, hfields.2.2]

/-! ## Claims -/

/-- C1: for a user that already has a reward row (unique, per the per-user
uniqueness invariant), calling UpdateReward with balance B1 and then with
balance B2 ≠ 0 leaves exactly one reward row for that user; its balance is
B2 — the second balance overwrites the first, it is not added — and its
reward type, point and incident-report id are those of the latest call. -/
theorem updateReward_twice_second_balance_wins (db : List Reward) (u : Nat) (r1 r2 : Reward)
    (hone : db.countP (fun row => row.userID = u) = 1) (hb2 : r2.balance ≠ 0) :
    (UpdateReward (UpdateReward db u r1) u r2).countP (fun row => row.userID = u) = 1
    ∧ ∀ row ∈ UpdateReward (UpdateReward db u r1) u r2, row.userID = u →
        row.balance = r2.balance ∧ row.rewardType = r2.rewardType
        ∧ row.point = r2.point ∧ row.incidentReportID = r2.incidentReportID := by
  have h1 : (UpdateReward db u r1).countP (fun row => row.userID = u) = 1 := by
    rw [updateReward_countP_eq db u r1 (by rw [hone]; exact Nat.one_pos)]
    exact hone
  refine ⟨?_, ?_⟩
  · rw [updateReward_countP_eq _ u r2 (by rw [h1]; exact Nat.one_pos)]
    exact h1
  · intro row hmem hu
    obtain ⟨ha, hp, hi, hbal⟩ := updateReward_overwrites _ u r2 h1 hb2 row hmem hu
    exact ⟨hbal, ha, hp, hi⟩

/-- Witness for C1 at a concrete table: user 1 holds one row with balance 5;
updating with balance 2 then balance 9 leaves one row, with balance 9 and
the latest call's fields. -/
theorem updateReward_twice_second_balance_wins_witness :
    (UpdateReward (UpdateReward [⟨1, "t", 0, "i", 5⟩] 1 ⟨1, "a", 1, "j", 2⟩) 1
        ⟨1, "b", 3, "k", 9⟩).countP (fun row => row.userID = 1) = 1
    ∧ ∀ row ∈ UpdateReward (UpdateReward [⟨1, "t", 0, "i", 5⟩] 1 ⟨1, "a", 1, "j", 2⟩) 1
        ⟨1, "b", 3, "k", 9⟩, row.userID = 1 →
        row.balance = 9 ∧ row.rewardType = "b" ∧ row.point = 3 ∧ row.incidentReportID = "k" := by
  simpa using updateReward_twice_second_balance_wins [⟨1, "t", 0, "i", 5⟩] 1
    ⟨1, "a", 1, "j", 2⟩ ⟨1, "b", 3, "k", 9⟩ (by decide) (by decide)

/-- C2 counterexample: the claim's accumulate semantics fails on the code.
With an existing row of balance 5 for user 1, UpdateReward with balance 3
stores balance 3 — the argument's balance — and not 5 + 3 = 8: the stored
balance is overwritten, not the old balance plus the new balance. -/
theorem updateReward_not_additive_cex :
    UpdateReward [⟨1, "t", 0, "i", 5⟩] 1 ⟨1, "u", 2, "j", 3⟩ = [⟨1, "u", 2, "j", 3⟩]
    ∧ (3 : Int) ≠ 5 + 3 := by
  exact ⟨by decide, by decide⟩

/-- C2 amended: UpdateReward has find-or-create-then-overwrite-if-nonzero
semantics: it looks up the first reward row by user id; when absent it
creates the argument reward; when present it overwrites that row's reward
type, point and incident-report id with the argument's, overwrites the
balance only when the argument's balance is non-zero and keeps the stored
balance otherwise, leaving every other row unchanged. -/
theorem updateReward_find_or_create_overwrite (db : List Reward) (u : Nat) (r : Reward) :
    (db.countP (fun row => row.userID = u) = 0 → UpdateReward db u r = db ++ [r])
    ∧ ∀ pre x post, db = pre ++ x :: post → (∀ y ∈ pre, y.userID ≠ u) → x.userID = u →
        UpdateReward db u r = pre ++
          ({ x with
             rewardType := r.rewardType
             point := r.point
             incidentReportID := r.incidentReportID
             balance := if r.balance ≠ 0 then r.balance else x.balance } : Reward) :: post := by
  constructor
  · intro hnone
    induction db with
    | nil => rfl
    | cons row rest ih =>
      have hrow : ¬ row.userID = u := by
        have := List.countP_eq_zero.mp hnone row (List.mem_cons_self row rest)
        simpa using this
      have hrest : rest.countP (fun row => row.userID = u) = 0 := by
        simpa [List.countP_cons, hrow] using hnone
      simp [UpdateReward, hrow, ih hrest]
  · intro pre x post hdb hpre hx
    subst hdb
    induction pre with
    | nil => simp [UpdateReward, hx]
    | cons y ys ih =>
      have hy : ¬ y.userID = u := hpre y (List.mem_cons_self y ys)
      have hys : ∀ z ∈ ys, z.userID ≠ u := fun z hz => hpre z (List.mem_cons_of_mem y hz)
      simp [UpdateReward, hy, ih hys]

/-- Witness for the amended C2 at concrete tables: a user with no row gets
the argument appended; a user with a row keeps the stored balance 5 when the
argument's balance is 0 while the other fields are overwritten. -/
theorem updateReward_find_or_create_overwrite_witness :
    UpdateReward [⟨2, "a", 0, "x", 7⟩] 1 ⟨1, "b", 1, "y", 4⟩
      = [⟨2, "a", 0, "x", 7⟩, ⟨1, "b", 1, "y", 4⟩]
    ∧ UpdateReward [⟨2, "a", 0, "x", 7⟩, ⟨1, "t", 1, "i", 5⟩] 1 ⟨1, "c", 2, "z", 0⟩
      = [⟨2, "a", 0, "x", 7⟩, ⟨1, "c", 2, "z", 5⟩] := by
  constructor
  · exact (updateReward_find_or_create_overwrite [⟨2, "a", 0, "x", 7⟩] 1
      ⟨1, "b", 1, "y", 4⟩).1 (by decide)
  · have h := (updateReward_find_or_create_overwrite
      [⟨2, "a", 0, "x", 7⟩, ⟨1, "t", 1, "i", 5⟩] 1 ⟨1, "c", 2, "z", 0⟩).2
      [⟨2, "a", 0, "x", 7⟩] ⟨1, "t", 1, "i", 5⟩ [] rfl (by decide) (by decide)
    simpa using h

/-- C9: UpdateUser is a no-op: for every stored table and every user
argument it returns the table unchanged together with a `nil` error, so the
stored user records are unchanged by every call. -/
theorem updateUser_noop (db : List User) (user : User) :
    UpdateUser db user = (db, none) :=
  rfl

/-- C8: TokenInBlacklist returns exactly whether the Find query errored; on
a successful query it returns false even when the token is in the blacklist
table, unlike IsTokenInBlacklist, which counts the matching rows and reports
a whitespace-normalized blacklisted token as blacklisted. -/
theorem tokenInBlacklist_tracks_query_error (bl : List String) (token : String) (qErr : Bool) :
    TokenInBlacklist bl token qErr = qErr
    ∧ TokenInBlacklist bl token false = false
    ∧ (token ∈ bl → normalizeToken token = token → IsTokenInBlacklist bl token false = true) := by
  refine ⟨rfl, rfl, fun hmem hnorm => ?_⟩
  have hpos : 0 < bl.countP (fun t => t = normalizeToken token) := by
    rw [List.countP_pos_iff]
    exact ⟨token, hmem, by simp [hnorm]⟩
  simpa [IsTokenInBlacklist] using hpos

/-- Witness for C8 at a concrete blacklist: the token "tok" is stored, the
query succeeds, and still TokenInBlacklist answers false while
IsTokenInBlacklist answers true. -/
theorem tokenInBlacklist_tracks_query_error_witness :
    TokenInBlacklist ["tok"] "tok" false = false
    ∧ IsTokenInBlacklist ["tok"] "tok" false = true := by
  refine ⟨(tokenInBlacklist_tracks_query_error ["tok"] "tok" false).2.1, ?_⟩
  exact (tokenInBlacklist_tracks_query_error ["tok"] "tok" false).2.2
    (by decide) (by decide)

/-- C6: SaveStateLgaReportType is atomic: whenever it returns an error —
in particular whenever any of the four inserts fails — the stored tables are
unchanged, and it returns no error only when all four inserts succeeded, in
which case each of the four tables gains exactly its one new row. -/
theorem saveStateLgaReportType_atomic (db : CatalogDB) (lga : LGA) (state : StateRow)
    (rt : ReportType) (sr : SubReport) (f : TxFailures) :
    ((SaveStateLgaReportType db lga state rt sr f).2.isSome →
        (SaveStateLgaReportType db lga state rt sr f).1 = db)
    ∧ ((f.createReportTypeFails = true ∨ f.createSubReportFails = true
        ∨ f.createLgaFails = true ∨ f.createStateFails = true) →
        (SaveStateLgaReportType db lga state rt sr f).2.isSome
        ∧ (SaveStateLgaReportType db lga state rt sr f).1 = db)
    ∧ ((SaveStateLgaReportType db lga state rt sr f).2 = none →
        f.createReportTypeFails = false ∧ f.createSubReportFails = false
        ∧ f.createLgaFails = false ∧ f.createStateFails = false
        ∧ (SaveStateLgaReportType db lga state rt sr f).1 =
            ⟨db.reportTypes ++ [rt], db.subReports ++ [sr],
             db.lgas ++ [lga], db.states ++ [state]⟩) := by
  obtain ⟨a, b, c, d, e⟩ := f
  cases a <;> cases b <;> cases c <;> cases d <;> cases e <;>
    simp [SaveStateLgaReportType]

/-- Witness for C6 at a concrete store: a failing LGA insert leaves the
tables unchanged with an error, and an all-success run appends one row to
each of the four tables. -/
theorem saveStateLgaReportType_atomic_witness :
    ((SaveStateLgaReportType ⟨[], [], [], []⟩ ⟨"Ikeja"⟩ ⟨"Lagos"⟩ ⟨"Crime", "Lagos", "Ikeja", "bad"⟩
        ⟨"Theft"⟩ ⟨false, false, true, false, false⟩).1 = ⟨[], [], [], []⟩
      ∧ (SaveStateLgaReportType ⟨[], [], [], []⟩ ⟨"Ikeja"⟩ ⟨"Lagos"⟩
        ⟨"Crime", "Lagos", "Ikeja", "bad"⟩ ⟨"Theft"⟩ ⟨false, false, true, false, false⟩).2.isSome)
    ∧ (SaveStateLgaReportType ⟨[], [], [], []⟩ ⟨"Ikeja"⟩ ⟨"Lagos"⟩ ⟨"Crime", "Lagos", "Ikeja", "bad"⟩
        ⟨"Theft"⟩ ⟨false, false, false, false, false⟩).1 =
        ⟨[⟨"Crime", "Lagos", "Ikeja", "bad"⟩], [⟨"Theft"⟩], [⟨"Ikeja"⟩], [⟨"Lagos"⟩]⟩ := by
  constructor
  · have h := (saveStateLgaReportType_atomic ⟨[], [], [], []⟩ ⟨"Ikeja"⟩ ⟨"Lagos"⟩
      ⟨"Crime", "Lagos", "Ikeja", "bad"⟩ ⟨"Theft"⟩ ⟨false, false, true, false, false⟩).2.1
      (by decide)
    exact ⟨h.2, h.1⟩
  · have h := (saveStateLgaReportType_atomic ⟨[], [], [], []⟩ ⟨"Ikeja"⟩ ⟨"Lagos"⟩
      ⟨"Crime", "Lagos", "Ikeja", "bad"⟩ ⟨"Theft"⟩ ⟨false, false, false, false, false⟩).2.2
      (by decide)
    exact h.2.2.2.2

/-- C4 counterexample: this request has an empty title (a missing required
field), yet the handler answers 401, not 400, because the token check runs
before the field check and the bearer token is missing; CreatePost is still
not called. -/
theorem handleCreatePost_missing_field_cex :
    (handleCreatePost "https://bucket"
        ⟨false, false, "img.png", "", none, "", "news", "desc", false, false, false⟩).status = 401
    ∧ (401 : Nat) ≠ 400
    ∧ (handleCreatePost "https://bucket"
        ⟨false, false, "img.png", "", none, "", "news", "desc", false, false,
          false⟩).createPostCalled = false := by
  exact ⟨rfl, by decide, rfl⟩

/-- C4 amended: a request with a missing file yields 400 and no CreatePost
call; a request with an empty title, category or description in which the
earlier checks passed (file present and valid, token non-empty with a
numeric id claim) yields 400; and in every request with an empty title,
category or description CreatePost is never called, so no database write
occurs. -/
theorem handleCreatePost_missing_field_400_no_write (bucketHost : String)
    (req : CreatePostRequest) (uid : Nat) :
    (req.formFileErr = true →
      (handleCreatePost bucketHost req).status = 400
      ∧ (handleCreatePost bucketHost req).createPostCalled = false)
    ∧ (req.formFileErr = false → req.fileInvalid = false → req.headerToken ≠ "" →
        req.claims = some (.num uid) →
        (req.title = "" ∨ req.postCategory = "" ∨ req.postDescription = "") →
        (handleCreatePost bucketHost req).status = 400)
    ∧ ((req.title = "" ∨ req.postCategory = "" ∨ req.postDescription = "") →
        (handleCreatePost bucketHost req).createPostCalled = false) := by
  refine ⟨?_, ?_, ?_⟩
  · intro h
    simp [handleCreatePost, h]
  · intro h1 h2 h3 h4 h5
    rcases h5 with h | h | h <;> simp [handleCreatePost, h1, h2, h3, h4, h]
  · intro h5
    by_contra hc
    simp only [Bool.not_eq_false] at hc
    obtain ⟨hup, -⟩ := (handleCreatePost_calls bucketHost req).2 hc
    obtain ⟨-, -, -, -, hti, hpc, hpd, -⟩ := (handleCreatePost_calls bucketHost req).1 hup
    rcases h5 with h | h | h
    exacts [hti h, hpc h, hpd h]

/-- Witness for the amended C4: a request with a valid file, a valid token
with id claim 7 and an empty title gets status 400 and no CreatePost call. -/
theorem handleCreatePost_missing_field_400_no_write_witness :
    (handleCreatePost "https://bucket"
        ⟨false, false, "img.png", "tok", some (.num 7), "", "news", "desc", false, false,
          false⟩).status = 400
    ∧ (handleCreatePost "https://bucket"
        ⟨false, false, "img.png", "tok", some (.num 7), "", "news", "desc", false, false,
          false⟩).createPostCalled = false := by
  constructor
  · exact (handleCreatePost_missing_field_400_no_write "https://bucket"
      ⟨false, false, "img.png", "tok", some (.num 7), "", "news", "desc", false, false, false⟩
      7).2.1 rfl rfl (by decide) rfl (Or.inl rfl)
  · exact (handleCreatePost_missing_field_400_no_write "https://bucket"
      ⟨false, false, "img.png", "tok", some (.num 7), "", "news", "desc", false, false, false⟩
      7).2.2 (Or.inl rfl)

/-- C5 counterexample: this request has a missing bearer token, yet the
handler answers 400, not 401, because the form-file check runs before the
token check and the file is missing; the upload is still not invoked. -/
theorem handleCreatePost_unauthorized_cex :
    (handleCreatePost "https://bucket"
        ⟨true, false, "img.png", "", none, "t", "c", "d", false, false, false⟩).status = 400
    ∧ (400 : Nat) ≠ 401
    ∧ (handleCreatePost "https://bucket"
        ⟨true, false, "img.png", "", none, "t", "c", "d", false, false, false⟩).uploadCalled
        = false := by
  exact ⟨rfl, by decide, rfl⟩

/-- C5 amended: for every request whose bearer token is missing (empty
header) or whose claim validation fails, the upload helper is never called —
a storage upload occurs only after token validation succeeds — and when the
preceding file checks passed such a request is answered with 401. -/
theorem handleCreatePost_unauthorized_no_upload (bucketHost : String)
    (req : CreatePostRequest)
    (htok : req.headerToken = "" ∨ req.claims = none) :
    (req.formFileErr = false → req.fileInvalid = false →
      (handleCreatePost bucketHost req).status = 401)
    ∧ (handleCreatePost bucketHost req).uploadCalled = false := by
  constructor
  · intro h1 h2
    rcases htok with h | h
    · simp [handleCreatePost, h1, h2, h]
    · by_cases h0 : req.headerToken = ""
      · simp [handleCreatePost, h1, h2, h0]
      · simp [handleCreatePost, h1, h2, h0, h]
  · by_contra hc
    simp only [Bool.not_eq_false] at hc
    obtain ⟨-, -, h3, ⟨uid, h4⟩, -⟩ := (handleCreatePost_calls bucketHost req).1 hc
    rcases htok with h | h
    · exact h3 h
    · rw [h] at h4
      cases h4

/-- Witness for the amended C5: a request with a valid file whose claim
validation failed gets status 401 and no upload. -/
theorem handleCreatePost_unauthorized_no_upload_witness :
    (handleCreatePost "https://bucket"
        ⟨false, false, "img.png", "tok", none, "t", "c", "d", false, false, false⟩).status = 401
    ∧ (handleCreatePost "https://bucket"
        ⟨false, false, "img.png", "tok", none, "t", "c", "d", false, false, false⟩).uploadCalled
        = false := by
  have h := handleCreatePost_unauthorized_no_upload "https://bucket"
    ⟨false, false, "img.png", "tok", none, "t", "c", "d", false, false, false⟩ (Or.inr rfl)
  exact ⟨h.1 rfl rfl, h.2⟩

/-- C3: the repository upload returns the URL bucket host + filename whatever
the storage service's PutObject response is, and for every valid submission
(file present and valid, token valid with numeric id claim, all required
fields non-empty, no infrastructure failure) the created post's stored
image is `<bucketHost>/<userID>_<originalFilename>`. -/
theorem uploadFileToS3_deterministic_url_post_image
    (fileName : String) (resp resp' : PutObjectResult)
    (bucketHost : String) (req : CreatePostRequest) (uid : Nat)
    (h1 : req.formFileErr = false) (h2 : req.fileInvalid = false)
    (h3 : req.headerToken ≠ "") (h4 : req.claims = some (.num uid))
    (h5 : req.title ≠ "") (h6 : req.postCategory ≠ "") (h7 : req.postDescription ≠ "")
    (h8 : req.s3ClientErr = false) (h9 : req.uploadErr = false)
    (h10 : req.createPostErr = false) :
    (UploadFileToS3 fileName resp).1 = (UploadFileToS3 fileName resp').1
    ∧ (UploadFileToS3 fileName resp).1
        = "https://s3-eu-west-3.amazonaws.com/arp-rental/" ++ fileName
    ∧ (handleCreatePost bucketHost req).post
        = some ⟨uid, req.title, req.postCategory,
            bucketHost ++ "/" ++ (toString uid ++ "_" ++ req.fileName), req.postDescription⟩
    ∧ (handleCreatePost bucketHost req).status = 200 := by
  refine ⟨rfl, rfl, ?_, ?_⟩ <;>
    simp [handleCreatePost, uploadFileToS3, h1, h2, h3, h4, h5, h6, h7, h8, h9, h10]

/-- Witness for C3 at a concrete submission: user 7 uploads `cat.png`; the
upload URL is the same under two different PutObject responses, and the
stored image is `https://bucket/7_cat.png`. -/
theorem uploadFileToS3_deterministic_url_post_image_witness :
    (UploadFileToS3 "cat.png" ⟨"ok", none⟩).1 = (UploadFileToS3 "cat.png" ⟨"oops", some "e"⟩).1
    ∧ (UploadFileToS3 "cat.png" ⟨"ok", none⟩).1
        = "https://s3-eu-west-3.amazonaws.com/arp-rental/cat.png"
    ∧ (handleCreatePost "https://bucket"
        ⟨false, false, "cat.png", "tok", some (.num 7), "Title", "crime", "descr", false, false,
          false⟩).post
        = some ⟨7, "Title", "crime", "https://bucket/7_cat.png", "descr"⟩
    ∧ (handleCreatePost "https://bucket"
        ⟨false, false, "cat.png", "tok", some (.num 7), "Title", "crime", "descr", false, false,
          false⟩).status = 200 := by
  have h := uploadFileToS3_deterministic_url_post_image "cat.png" ⟨"ok", none⟩ ⟨"oops", some "e"⟩
    "https://bucket"
    ⟨false, false, "cat.png", "tok", some (.num 7), "Title", "crime", "descr", false, false, false⟩
    7 rfl rfl (by decide) rfl (by decide) (by decide) (by decide) rfl rfl rfl
  refine ⟨h.1, ?_, ?_, h.2.2.2⟩
  · rw [h.2.1]
    decide
  · rw [h.2.2.1]
    decide

/-- C7: for every page N ≥ 1, GetAllReports and GetAllReportsByState answer
without an error with the rows at offsets (N−1)·20 … N·20−1 of the result
set ordered by time of incidence descending — element i of the page is
element (N−1)·20 + i of the ordered set and a page holds at most 20 rows —
and a page past the end of the data is the empty list, not an error; the
ordered set is a descending-by-time permutation of the matching rows. -/
theorem getAllReports_pagination (db : List IncidentReport) (state : String) (page : Int)
    (hpage : 1 ≤ page) :
    ∃ rows rowsSt,
      GetAllReports db page = .ok rows
      ∧ GetAllReportsByState db state page = .ok rowsSt
      ∧ rows.length ≤ 20 ∧ rowsSt.length ≤ 20
      ∧ (∀ i, i < 20 → rows[i]? = (orderByTimeDesc db)[((page - 1) * 20).toNat + i]?)
      ∧ (∀ i, i < 20 → rowsSt[i]? =
          (orderByTimeDesc (db.filter (fun r =>
            r.stateName = state)))[((page - 1) * 20).toNat + i]?)
      ∧ ((orderByTimeDesc db).length ≤ ((page - 1) * 20).toNat → rows = [])
      ∧ ((orderByTimeDesc (db.filter (fun r => r.stateName = state))).length
            ≤ ((page - 1) * 20).toNat → rowsSt = [])
      ∧ (orderByTimeDesc db).Pairwise (fun a b => b.timeofIncidence ≤ a.timeofIncidence)
      ∧ List.Perm (orderByTimeDesc db) db := by
  unfold GetAllReports GetAllReportsByState DefaultPageSize
  simp only [Nat.cast_ofNat]
  refine ⟨_, _, rfl, rfl, ?_, ?_, ?_, ?_, ?_, ?_, ?_, ?_⟩
  · simp only [List.length_take]
    omega
  · simp only [List.length_take]
    omega
  · intro i hi
    rw [List.getElem?_take_of_lt hi, List.getElem?_drop]
  · intro i hi
    rw [List.getElem?_take_of_lt hi, List.getElem?_drop]
  · intro h
    rw [List.drop_eq_nil_of_le h]
    simp
  · intro h
    rw [List.drop_eq_nil_of_le h]
    simp
  · have hs : (orderByTimeDesc db).Pairwise
        (fun a b => decide (b.timeofIncidence ≤ a.timeofIncidence) = true) := by
      unfold orderByTimeDesc
      exact List.sorted_mergeSort
        (fun a b c hab hbc => by
          simp only [decide_eq_true_eq] at *
          omega)
        (fun a b => by
          simp only [Bool.or_eq_true, decide_eq_true_eq]
          omega)
        db
    exact hs.imp (fun h => by simpa using h)
  · exact List.mergeSort_perm db _

/-- Witness for C7 at a concrete table of two reports: page 2 is past the
end of the data and comes back as `.ok []`, while page 1 answers without an
error with at most 20 rows. -/
theorem getAllReports_pagination_witness :
    GetAllReports [⟨"a", 1, "Lagos", 10⟩, ⟨"b", 2, "Abuja", 30⟩] 2 = .ok []
    ∧ ∃ rows, GetAllReports [⟨"a", 1, "Lagos", 10⟩, ⟨"b", 2, "Abuja", 30⟩] 1 = .ok rows
        ∧ rows.length ≤ 20 := by
  constructor
  · obtain ⟨rows, rowsSt, h1, -, -, -, -, -, h7, -, -, -⟩ :=
      getAllReports_pagination [⟨"a", 1, "Lagos", 10⟩, ⟨"b", 2, "Abuja", 30⟩] "Lagos" 2
        (by decide)
    rw [h1, h7 (by simp [orderByTimeDesc])]
  · obtain ⟨rows, rowsSt, h1, -, h3, -, -, -, -, -, -, -⟩ :=
      getAllReports_pagination [⟨"a", 1, "Lagos", 10⟩, ⟨"b", 2, "Abuja", 30⟩] "Lagos" 1
        (by decide)
    exact ⟨rows, h1, h3⟩

/-- C10: GetRatingPercentages guards no zero total: for a category and state
with no matching report-type rows (and successful count queries) it still
returns a non-error result, and both percentage fields are the NaN produced
by the float division 0/0 — in particular they are neither an error nor the
finite value 0. -/
theorem getRatingPercentages_zero_total_nan (rows : List ReportType) (rt st : String)
    (hnone : rows.countP (fun r => r.category = rt ∧ r.stateName = st) = 0) :
    GetRatingPercentages rows rt st none none none = .ok ⟨.nan, .nan⟩
    ∧ (GoFloat.nan ≠ .val 0) := by
  have hgood : rows.countP (fun r => r.category = rt ∧ r.stateName = st ∧
      r.incidentReportRating = "good") = 0 := by
    have hle : rows.countP (fun r => r.category = rt ∧ r.stateName = st ∧
          r.incidentReportRating = "good")
        ≤ rows.countP (fun r => r.category = rt ∧ r.stateName = st) :=
      List.countP_mono_left (fun x _ hx => by
        simp only [decide_eq_true_eq] at *
        exact ⟨hx.1, hx.2.1⟩)
    omega
  have hbad : rows.countP (fun r => r.category = rt ∧ r.stateName = st ∧
      r.incidentReportRating = "bad") = 0 := by
    have hle : rows.countP (fun r => r.category = rt ∧ r.stateName = st ∧
          r.incidentReportRating = "bad")
        ≤ rows.countP (fun r => r.category = rt ∧ r.stateName = st) :=
      List.countP_mono_left (fun x _ hx => by
        simp only [decide_eq_true_eq] at *
        exact ⟨hx.1, hx.2.1⟩)
    omega
  refine ⟨?_, by simp⟩
  simp only [GetRatingPercentages, hnone, hgood, hbad, Nat.cast_zero]
  simp [goDiv, goMulPos]

/-- Witness for C10 at the empty table: no rows match, the result is `.ok`
with both fields NaN, and NaN is not the value 0. -/
theorem getRatingPercentages_zero_total_nan_witness :
    GetRatingPercentages [] "Crime" "Lagos" none none none = .ok ⟨.nan, .nan⟩
    ∧ (GoFloat.nan ≠ .val 0) :=
  getRatingPercentages_zero_total_nan [] "Crime" "Lagos" rfl

end CitizenX
